import Mathlib

/-!
# Verification of the comparative-metrics core of `report-ga4-api`

Shallow embedding of `calculate_comparison_metrics` and `analyze_by_dimension`
from `src/main.py` (the MetricAggregator / DimensionalComparator core of the
spec), together with proofs of the spec's claims about them.

Modelling conventions:

* Python floats are modelled as exact rationals extended with a `NaN` element
  (`PFloat`).  The only float subtleties these two functions exercise are the
  propagation of `NaN` (pandas' `Series.mean()` of an empty column) and the
  fact that every comparison against `NaN` is false; both are modelled
  exactly.  Rounding of float arithmetic is not modelled.
* A pandas `DataFrame` is a schema (dimension column names, metric column
  names) plus an ordered list of rows; a column access on a name outside the
  schema is a `KeyError`, modelled by returning `none` (the spec's
  `SchemaMismatch`).
* `df.groupby(dim)` sorts the group keys ascending (pandas `sort=True`
  default); `DataFrame.join(..., how="outer")` of the two sorted unique group
  indexes produces the sorted union of keys; `fillna(0)` fills the aggregates
  of a key missing from one side with `0`.
* `df.sort_values(col, ascending=False)` defaults to `kind='quicksort'`
  (numpy introsort), which is unstable: beyond the small-array
  insertion-sort regime its partition step permutes tied rows, so the
  program's tie order is decided by numpy internals.  The model uses a
  stable descending insertion sort instead; it agrees with the program on
  the multiset of rows and on the descending order of the sort key, but
  the relative order of tied rows is a modelling choice (exact only in the
  insertion-sort regime), so no theorem here settles the program's tie
  order.
-/

-- Batteries marks `Rat` arithmetic `@[irreducible]`; restore reducibility for
-- this file so concrete rational computations can be settled by `decide`.
set_option allowUnsafeReducibility true
attribute [local semireducible] Rat.add Rat.sub Rat.mul Rat.inv Rat.ofScientific

/-- A Python float as used by these functions: an exact rational or `NaN`.
`NaN` arises in this code only from `Series.mean()` on an empty column and
then propagates through arithmetic; every ordered comparison and equality
test against `NaN` is false. -/
inductive PFloat where
  | nan : PFloat
  | val : ℚ → PFloat
deriving DecidableEq, Repr

/-- Float subtraction, `NaN`-propagating (`current_val - previous_val`). -/
def PFloat.sub : PFloat → PFloat → PFloat
  | .val a, .val b => .val (a - b)
  | _, _ => .nan

/-- The Python test `x > 0`: false on `NaN`. -/
def PFloat.gtZero : PFloat → Bool
  | .val a => decide (0 < a)
  | .nan => false

/-- The Python test `x == 0`: false on `NaN`. -/
def PFloat.eqZero : PFloat → Bool
  | .val a => decide (a = 0)
  | .nan => false

/-- `((current_val - previous_val) / previous_val) * 100`, `NaN`-propagating. -/
def PFloat.pctChange : PFloat → PFloat → PFloat
  | .val c, .val p => .val ((c - p) / p * 100)
  | _, _ => .nan

/-- One observation row: dimension fields (strings) and metric fields
(numbers), addressed by column name.  A `DataFrame`'s schema says which
names are actually columns. -/
structure Row where
  dim : String → String
  met : String → ℚ

/-- A pandas `DataFrame` as these functions use it: a schema of dimension
and metric column names and an ordered list of rows. -/
structure DataFrame where
  dimCols : List String
  metCols : List String
  rows : List Row

/-- The raw values of metric column `c` (in row order). -/
def DataFrame.metCol (df : DataFrame) (c : String) : List ℚ :=
  df.rows.map (fun r => r.met c)

/-- `sum()` of a list of floats; pandas sums an empty column to `0`. -/
def qsum (xs : List ℚ) : ℚ := xs.foldr (· + ·) 0

/-- `mean()` of a list of floats; pandas' mean of an empty column is `NaN`. -/
def qmean (xs : List ℚ) : PFloat :=
  if xs.isEmpty then .nan else .val (qsum xs / xs.length)

/-- `df[c].sum()`: `KeyError` (`none`) when `c` is not a metric column. -/
def DataFrame.colSum (df : DataFrame) (c : String) : Option PFloat :=
  if c ∈ df.metCols then some (.val (qsum (df.metCol c))) else none

/-- `df[c].mean()`: `KeyError` (`none`) when `c` is not a metric column. -/
def DataFrame.colMean (df : DataFrame) (c : String) : Option PFloat :=
  if c ∈ df.metCols then some (qmean (df.metCol c)) else none

/-- The five metrics aggregated with `.sum()` in `calculate_comparison_metrics`,
in the insertion order of the `current_totals` dict. -/
def summableMetrics : List String :=
  ["sessions", "users", "new_users", "conversions", "revenue"]

/-- The three metrics aggregated with `.mean()` in `calculate_comparison_metrics`,
in the insertion order of the `current_totals` dict. -/
def averagedMetrics : List String :=
  ["engagement_rate", "bounce_rate", "avg_session_duration"]

/-- All eight metrics of `calculate_comparison_metrics`, in dict insertion
order (Python dicts iterate in insertion order). -/
def allMetrics : List String := summableMetrics ++ averagedMetrics

/-- Sequence a list of fallible computations, failing if any fails (the
first `KeyError` raised while building a totals dict aborts the call). -/
def seqOpt {α : Type} : List (Option α) → Option (List α)
  | [] => some []
  | o :: os => o.bind fun a => (seqOpt os).map fun as => a :: as

/-- The `current_totals` / `previous_totals` dict of
`calculate_comparison_metrics`: the five summable metrics by `.sum()` then
the three averaged metrics by `.mean()`, as an ordered association list;
`none` when some metric column is missing (`KeyError`). -/
def DataFrame.totals (df : DataFrame) : Option (List (String × PFloat)) :=
  (seqOpt (summableMetrics.map fun c => (df.colSum c).map fun v => (c, v))).bind fun s =>
  (seqOpt (averagedMetrics.map fun c => (df.colMean c).map fun v => (c, v))).map fun a =>
  s ++ a

/-- The variation-percent branch of `calculate_comparison_metrics`:
`((cur - prev) / prev) * 100` when `prev > 0`, else `0` when `cur == 0`,
else the literal `100`. -/
def variationOf (cur prev : PFloat) : PFloat :=
  if prev.gtZero then PFloat.pctChange cur prev
  else if cur.eqZero then .val 0 else .val 100

/-- One metric's entry in the dict returned by `calculate_comparison_metrics`. -/
structure VarEntry where
  current : PFloat
  previous : PFloat
  variation : PFloat
  variation_abs : PFloat
deriving DecidableEq, Repr

/-- The body of the `for key in current_totals.keys()` loop. -/
def mkVarEntry (cur prev : PFloat) : VarEntry :=
  ⟨cur, prev, variationOf cur prev, cur.sub prev⟩

/-- `calculate_comparison_metrics(df_current, df_previous)` from
`src/main.py`: builds the two totals dicts (raising `KeyError` = `none` if a
metric column is absent from either frame), then for each key emits
current / previous / variation / variation_abs.  Both totals dicts hold the
same keys in the same insertion order, so the `previous_totals[key]` lookup
of the source pairs the entries positionally, which `List.zip` mirrors. -/
def calculate_comparison_metrics (dfc dfp : DataFrame) :
    Option (List (String × VarEntry)) :=
  dfc.totals.bind fun ct =>
  dfp.totals.map fun pt =>
  (ct.zip pt).map fun kv => (kv.1.1, mkVarEntry kv.1.2 kv.2.2)

/-- Python's lexicographic order on strings as lists of characters: compare
code points position by position, a strict prefix sorts first.  This is the
order pandas uses for a string group index. -/
def strLt : List Char → List Char → Bool
  | [], [] => false
  | [], _ :: _ => true
  | _ :: _, [] => false
  | a :: as, b :: bs =>
    if a.toNat < b.toNat then true
    else if b.toNat < a.toNat then false
    else strLt as bs

/-- Non-strict lexicographic order on strings. -/
def strLe (a b : String) : Bool := !(strLt b.data a.data)

/-- Insert `x` into `l` in front of the first element `y` with `le x y`;
keeps `x` after every earlier element it ties with when used by
`stableSort`. -/
def sortedInsert {α : Type} (le : α → α → Bool) (x : α) : List α → List α
  | [] => [x]
  | y :: ys => if le x y then x :: y :: ys else y :: sortedInsert le x ys

/-- A stable sort (insertion sort): elements the order `le` cannot tell
apart keep their original relative order. -/
def stableSort {α : Type} (le : α → α → Bool) : List α → List α
  | [] => []
  | x :: xs => sortedInsert le x (stableSort le xs)

/-- The three metrics aggregated per group by `analyze_by_dimension`
(`.agg({'sessions':'sum','users':'sum','revenue':'sum'})`). -/
def dimMetrics : List String := ["sessions", "users", "revenue"]

/-- The group keys of `df.groupby(dimension)`: the distinct dimension values,
sorted ascending (pandas `groupby` defaults to `sort=True`). -/
def DataFrame.groupKeys (df : DataFrame) (d : String) : List String :=
  stableSort strLe ((df.rows.map fun r => r.dim d).dedup)

/-- The per-group `.agg('sum')` of metric column `c` for the group of
dimension value `k` (sum over the rows whose `d`-value is `k`). -/
def DataFrame.groupSum (df : DataFrame) (d c k : String) : ℚ :=
  qsum ((df.rows.filter fun r => r.dim d = k).map fun r => r.met c)

/-- One side's aggregate for key `k` after the outer join and `fillna(0)`:
the group sum when `k` is one of this side's group keys, `0` (the filled
`NaN`) when `k` came only from the other side. -/
def DataFrame.fillSum (df : DataFrame) (d c k : String) : ℚ :=
  if k ∈ df.groupKeys d then df.groupSum d c k else 0

/-- The index of `current_agg.join(previous_agg, how='outer')`: the sorted
union of the two sorted unique group-key indexes (pandas' outer index join
of monotonic indexes returns the lexicographically sorted union). -/
def unionKeys (dfc dfp : DataFrame) (d : String) : List String :=
  stableSort strLe
    (((dfc.rows.map fun r => r.dim d) ++ (dfp.rows.map fun r => r.dim d)).dedup)

/-- A `_var_%` column entry: `(cur - prev) / prev.replace(0, 1) * 100` —
the zero denominator is replaced by `1` before dividing. -/
def safeVar (cur prev : ℚ) : ℚ :=
  (cur - prev) / (if prev = 0 then 1 else prev) * 100

/-- One row of the comparison table built by `analyze_by_dimension`:
the dimension value (the joined index) plus the `_current`, `_previous`
and `_var_%` columns for sessions, users and revenue. -/
structure GroupRow where
  key : String
  sessions_current : ℚ
  users_current : ℚ
  revenue_current : ℚ
  sessions_previous : ℚ
  users_previous : ℚ
  revenue_previous : ℚ
  sessions_var : ℚ
  users_var : ℚ
  revenue_var : ℚ
deriving DecidableEq, Repr

/-- The fully populated comparison row for dimension value `k`. -/
def mkGroupRow (dfc dfp : DataFrame) (d k : String) : GroupRow :=
  let sc := dfc.fillSum d "sessions" k
  let uc := dfc.fillSum d "users" k
  let rc := dfc.fillSum d "revenue" k
  let sp := dfp.fillSum d "sessions" k
  let up := dfp.fillSum d "users" k
  let rp := dfp.fillSum d "revenue" k
  ⟨k, sc, uc, rc, sp, up, rp, safeVar sc sp, safeVar uc up, safeVar rc rp⟩

/-- `comparison.sort_values('sessions_current', ascending=False)`.
pandas defaults to `kind='quicksort'` (numpy introsort), which is unstable:
outside the small-array insertion-sort regime it permutes tied rows, so the
program's tie order is implementation-defined.  Modelled as a stable
descending insertion sort — faithful for the multiset of rows and for the
descending `sessions_current` order; the order of tied rows is a modelling
choice (exact only in the insertion-sort regime) and no tie-order property
is claimed of the program. -/
def sortRows (rows : List GroupRow) : List GroupRow :=
  stableSort (fun a b => decide (b.sessions_current ≤ a.sessions_current)) rows

/-- `analyze_by_dimension(df_current, df_previous, dimension)` from
`src/main.py`: groups each period by `dimension` summing sessions, users and
revenue (`KeyError` = `none` if the dimension or one of those metric columns
is absent from either frame), outer-joins the two aggregates filling missing
sides with `0`, adds the three `_var_%` columns, and sorts descending by
`sessions_current`. -/
def analyze_by_dimension (dfc dfp : DataFrame) (d : String) :
    Option (List GroupRow) :=
  if (d ∈ dfc.dimCols ∧ ∀ c ∈ dimMetrics, c ∈ dfc.metCols)
      ∧ (d ∈ dfp.dimCols ∧ ∀ c ∈ dimMetrics, c ∈ dfp.metCols) then
    some (sortRows ((unionKeys dfc dfp d).map fun k => mkGroupRow dfc dfp d k))
  else
    none

/-- The value of a totals dict when no column is missing: summable metrics
first (each a `.sum()`), then averaged metrics (each a `.mean()`). -/
def totalsList (df : DataFrame) : List (String × PFloat) :=
  (summableMetrics.map fun c => (c, PFloat.val (qsum (df.metCol c)))) ++
  (averagedMetrics.map fun c => (c, qmean (df.metCol c)))

/-- The value of `calculate_comparison_metrics` when no column is missing. -/
def calcList (dfc dfp : DataFrame) : List (String × VarEntry) :=
  ((totalsList dfc).zip (totalsList dfp)).map fun kv => (kv.1.1, mkVarEntry kv.1.2 kv.2.2)

/-! ### Concrete frames used to instantiate the theorems -/

/-- A two-row current period (the spec's channel scenario, §8.6, plus values
exercising each variation branch; revenue is negative on purpose). -/
def dfWcur : DataFrame :=
  ⟨["channel"], allMetrics,
    [⟨fun _ => "Organic Search", fun c =>
        if c = "sessions" then 120 else if c = "users" then 2
        else if c = "new_users" then 0 else if c = "conversions" then 2
        else if c = "revenue" then -3 else if c = "engagement_rate" then 1/2
        else if c = "bounce_rate" then 2 else 3⟩,
     ⟨fun _ => "Paid Social", fun c =>
        if c = "sessions" then 80 else if c = "users" then 0
        else if c = "new_users" then 0 else if c = "conversions" then 0
        else if c = "revenue" then -1 else if c = "engagement_rate" then 7/10
        else if c = "bounce_rate" then 0 else 1⟩]⟩

/-- A one-row previous period matching `dfWcur`. -/
def dfWprev : DataFrame :=
  ⟨["channel"], allMetrics,
    [⟨fun _ => "Organic Search", fun c =>
        if c = "sessions" then 150 else if c = "users" then 1
        else if c = "new_users" then 0 else if c = "conversions" then 0
        else if c = "revenue" then -2 else if c = "engagement_rate" then 1
        else if c = "bounce_rate" then 1 else 2⟩]⟩

/-- The metrics dict `calculate_comparison_metrics` returns on
`dfWcur` / `dfWprev`. -/
def mW : List (String × VarEntry) :=
  [("sessions", ⟨.val 200, .val 150, .val (100/3), .val 50⟩),
   ("users", ⟨.val 2, .val 1, .val 100, .val 1⟩),
   ("new_users", ⟨.val 0, .val 0, .val 0, .val 0⟩),
   ("conversions", ⟨.val 2, .val 0, .val 100, .val 2⟩),
   ("revenue", ⟨.val (-4), .val (-2), .val 100, .val (-2)⟩),
   ("engagement_rate", ⟨.val (3/5), .val 1, .val (-40), .val (-2/5)⟩),
   ("bounce_rate", ⟨.val 1, .val 1, .val 0, .val 0⟩),
   ("avg_session_duration", ⟨.val 2, .val 2, .val 0, .val 0⟩)]

/-- A current period with two channels tying on sessions (keys "b" before
"a" in row order, equal `sessions` sums). -/
def dfAcur : DataFrame :=
  ⟨["channel"], ["sessions", "users", "revenue"],
    [⟨fun _ => "b", fun c => if c = "sessions" then 5 else if c = "users" then 1 else 2⟩,
     ⟨fun _ => "a", fun c => if c = "sessions" then 5 else if c = "users" then 0 else 0⟩]⟩

/-- A previous period whose only channel "c" is absent from `dfAcur`. -/
def dfAprev : DataFrame :=
  ⟨["channel"], ["sessions", "users", "revenue"],
    [⟨fun _ => "c", fun c => if c = "sessions" then 2 else if c = "users" then 1 else 1⟩]⟩

/-- The comparison table `analyze_by_dimension` returns on
`dfAcur` / `dfAprev` / `"channel"`. -/
def rowsA : List GroupRow :=
  [⟨"a", 5, 0, 0, 0, 0, 0, 500, 0, 0⟩,
   ⟨"b", 5, 1, 2, 0, 0, 0, 500, 100, 200⟩,
   ⟨"c", 0, 0, 0, 2, 1, 1, -100, -100, -100⟩]

/-- The sessions entry of `mW` (positive previous aggregate). -/
def eSessions : VarEntry := ⟨.val 200, .val 150, .val (100/3), .val 50⟩

/-- The revenue entry of `mW` (negative previous aggregate). -/
def eRevenue : VarEntry := ⟨.val (-4), .val (-2), .val 100, .val (-2)⟩

/-- The first row of `rowsA` (channel "a", present only in the current
period). -/
def gA : GroupRow := ⟨"a", 5, 0, 0, 0, 0, 0, 500, 0, 0⟩

/-- A frame with the full metric schema and no rows at all. -/
def dfEmptyW : DataFrame := ⟨["channel"], allMetrics, []⟩

/-- What `calculate_comparison_metrics` returns with both periods empty:
summable metrics are all-zero, averaged metrics are `NaN` with the `100`
sentinel as variation (pandas' mean of an empty column is `NaN`, and `NaN`
fails both the `> 0` and the `== 0` test). -/
def mEmpty : List (String × VarEntry) :=
  [("sessions", ⟨.val 0, .val 0, .val 0, .val 0⟩),
   ("users", ⟨.val 0, .val 0, .val 0, .val 0⟩),
   ("new_users", ⟨.val 0, .val 0, .val 0, .val 0⟩),
   ("conversions", ⟨.val 0, .val 0, .val 0, .val 0⟩),
   ("revenue", ⟨.val 0, .val 0, .val 0, .val 0⟩),
   ("engagement_rate", ⟨.nan, .nan, .val 100, .nan⟩),
   ("bounce_rate", ⟨.nan, .nan, .val 100, .nan⟩),
   ("avg_session_duration", ⟨.nan, .nan, .val 100, .nan⟩)]

/-! ### Facts about `stableSort` -/

theorem sortedInsert_perm {α : Type} (le : α → α → Bool) (x : α) :
    ∀ l : List α, List.Perm (sortedInsert le x l) (x :: l)
  | [] => List.Perm.refl _
  | y :: ys => by
    simp only [sortedInsert]
    split
    · exact List.Perm.refl _
    · exact ((sortedInsert_perm le x ys).cons y).trans (List.Perm.swap x y ys)

theorem stableSort_perm {α : Type} (le : α → α → Bool) :
    ∀ l : List α, List.Perm (stableSort le l) l
  | [] => List.Perm.refl _
  | x :: xs => (sortedInsert_perm le x (stableSort le xs)).trans
      ((stableSort_perm le xs).cons x)

theorem mem_stableSort {α : Type} (le : α → α → Bool) {x : α} {l : List α} :
    x ∈ stableSort le l ↔ x ∈ l :=
  (stableSort_perm le l).mem_iff

/-! ### The joined key index -/

theorem unionKeys_nodup (dfc dfp : DataFrame) (d : String) :
    (unionKeys dfc dfp d).Nodup :=
  ((stableSort_perm strLe _).nodup_iff).2 (List.nodup_dedup _)

theorem mem_unionKeys {dfc dfp : DataFrame} {d k : String} :
    k ∈ unionKeys dfc dfp d ↔
      k ∈ (dfc.rows.map fun r => r.dim d) ∨ k ∈ (dfp.rows.map fun r => r.dim d) := by
  rw [unionKeys, mem_stableSort, List.mem_dedup, List.mem_append]

/-! ### Structure of `calculate_comparison_metrics` -/

theorem seqOpt_isSome {α : Type} :
    ∀ l : List (Option α), (seqOpt l).isSome = true ↔ ∀ o ∈ l, o.isSome = true
  | [] => by simp [seqOpt]
  | o :: os => by
    cases o <;> simp [seqOpt, seqOpt_isSome os]

theorem colSum_isSome {df : DataFrame} {c : String} :
    (df.colSum c).isSome = true ↔ c ∈ df.metCols := by
  rw [DataFrame.colSum]
  split <;> simp [*]

theorem colMean_isSome {df : DataFrame} {c : String} :
    (df.colMean c).isSome = true ↔ c ∈ df.metCols := by
  rw [DataFrame.colMean]
  split <;> simp [*]

theorem totals_eq {df : DataFrame} (h : ∀ c ∈ allMetrics, c ∈ df.metCols) :
    df.totals = some (totalsList df) := by
  have h1 := h "sessions" (by simp [allMetrics, summableMetrics, averagedMetrics])
  have h2 := h "users" (by simp [allMetrics, summableMetrics, averagedMetrics])
  have h3 := h "new_users" (by simp [allMetrics, summableMetrics, averagedMetrics])
  have h4 := h "conversions" (by simp [allMetrics, summableMetrics, averagedMetrics])
  have h5 := h "revenue" (by simp [allMetrics, summableMetrics, averagedMetrics])
  have h6 := h "engagement_rate" (by simp [allMetrics, summableMetrics, averagedMetrics])
  have h7 := h "bounce_rate" (by simp [allMetrics, summableMetrics, averagedMetrics])
  have h8 := h "avg_session_duration" (by simp [allMetrics, summableMetrics, averagedMetrics])
  simp [DataFrame.totals, seqOpt, summableMetrics, averagedMetrics, DataFrame.colSum,
    DataFrame.colMean, totalsList, h1, h2, h3, h4, h5, h6, h7, h8]

theorem totals_isSome {df : DataFrame} :
    df.totals.isSome = true ↔ ∀ c ∈ allMetrics, c ∈ df.metCols := by
  constructor
  · intro h c hc
    rcases hs : seqOpt (summableMetrics.map fun c => (df.colSum c).map fun v => (c, v)) with
      _ | s
    · rw [DataFrame.totals, hs] at h
      simp at h
    rcases ha : seqOpt (averagedMetrics.map fun c => (df.colMean c).map fun v => (c, v)) with
      _ | t
    · rw [DataFrame.totals, hs, ha] at h
      simp at h
    rw [allMetrics, List.mem_append] at hc
    rcases hc with hc | hc
    · have hmem : (df.colSum c).map (fun v => (c, v)) ∈
          summableMetrics.map fun c => (df.colSum c).map fun v => (c, v) :=
        List.mem_map_of_mem _ hc
      have := (seqOpt_isSome _).1 (by rw [hs]; rfl) _ hmem
      rcases hcol : df.colSum c with _ | v
      · rw [hcol] at this
        simp at this
      · exact colSum_isSome.1 (by rw [hcol]; rfl)
    · have hmem : (df.colMean c).map (fun v => (c, v)) ∈
          averagedMetrics.map fun c => (df.colMean c).map fun v => (c, v) :=
        List.mem_map_of_mem _ hc
      have := (seqOpt_isSome _).1 (by rw [ha]; rfl) _ hmem
      rcases hcol : df.colMean c with _ | v
      · rw [hcol] at this
        simp at this
      · exact colMean_isSome.1 (by rw [hcol]; rfl)
  · intro h
    rw [totals_eq h]
    rfl

theorem calc_eq {dfc dfp : DataFrame} (hc : ∀ c ∈ allMetrics, c ∈ dfc.metCols)
    (hp : ∀ c ∈ allMetrics, c ∈ dfp.metCols) :
    calculate_comparison_metrics dfc dfp = some (calcList dfc dfp) := by
  rw [calculate_comparison_metrics, totals_eq hc, totals_eq hp]
  rfl

theorem calc_isSome {dfc dfp : DataFrame} :
    (calculate_comparison_metrics dfc dfp).isSome = true ↔
      (∀ c ∈ allMetrics, c ∈ dfc.metCols) ∧ (∀ c ∈ allMetrics, c ∈ dfp.metCols) := by
  constructor
  · intro h
    rcases h1 : dfc.totals with _ | ct
    · rw [calculate_comparison_metrics, h1] at h
      simp at h
    rcases h2 : dfp.totals with _ | pt
    · rw [calculate_comparison_metrics, h1, h2] at h
      simp at h
    exact ⟨totals_isSome.1 (by rw [h1]; rfl), totals_isSome.1 (by rw [h2]; rfl)⟩
  · rintro ⟨hc, hp⟩
    rw [calc_eq hc hp]
    rfl

theorem calc_mem_mk {dfc dfp : DataFrame} {m : List (String × VarEntry)}
    {k : String} {e : VarEntry} (h : calculate_comparison_metrics dfc dfp = some m)
    (hm : (k, e) ∈ m) : e = mkVarEntry e.current e.previous := by
  rcases h1 : dfc.totals with _ | ct
  · rw [calculate_comparison_metrics, h1] at h
    simp at h
  rcases h2 : dfp.totals with _ | pt
  · rw [calculate_comparison_metrics, h1, h2] at h
    simp at h
  rw [calculate_comparison_metrics, h1, h2] at h
  have hm2 : ((ct.zip pt).map fun kv => (kv.1.1, mkVarEntry kv.1.2 kv.2.2)) = m :=
    Option.some.inj h
  obtain ⟨kv, hkv, heq⟩ := List.mem_map.1 (hm2.symm ▸ hm)
  cases heq
  rfl

/-! ### Structure of `analyze_by_dimension` -/

theorem analyze_eq {dfc dfp : DataFrame} {d : String}
    (h : (d ∈ dfc.dimCols ∧ ∀ c ∈ dimMetrics, c ∈ dfc.metCols)
      ∧ (d ∈ dfp.dimCols ∧ ∀ c ∈ dimMetrics, c ∈ dfp.metCols)) :
    analyze_by_dimension dfc dfp d =
      some (sortRows ((unionKeys dfc dfp d).map fun k => mkGroupRow dfc dfp d k)) := by
  rw [analyze_by_dimension, if_pos h]

theorem analyze_isSome {dfc dfp : DataFrame} {d : String} :
    (analyze_by_dimension dfc dfp d).isSome = true ↔
      (d ∈ dfc.dimCols ∧ ∀ c ∈ dimMetrics, c ∈ dfc.metCols)
      ∧ (d ∈ dfp.dimCols ∧ ∀ c ∈ dimMetrics, c ∈ dfp.metCols) := by
  rw [analyze_by_dimension]
  split
  · rename_i hcond
    exact iff_of_true rfl hcond
  · rename_i hcond
    exact iff_of_false (by simp) hcond

theorem analyze_mem {dfc dfp : DataFrame} {d : String} {rows : List GroupRow} {r : GroupRow}
    (h : analyze_by_dimension dfc dfp d = some rows) (hr : r ∈ rows) :
    ∃ k, k ∈ unionKeys dfc dfp d ∧ r = mkGroupRow dfc dfp d k := by
  rw [analyze_by_dimension] at h
  split at h
  · cases Option.some.inj h
    have hr2 : r ∈ (unionKeys dfc dfp d).map fun k => mkGroupRow dfc dfp d k :=
      (mem_stableSort _).1 hr
    obtain ⟨k, hk, heq⟩ := List.mem_map.1 hr2
    exact ⟨k, hk, heq.symm⟩
  · exact absurd h (by simp)

/-! ## The claims -/

theorem entry_variation_eq {dfc dfp : DataFrame} {m : List (String × VarEntry)}
    {k : String} {e : VarEntry} (h : calculate_comparison_metrics dfc dfp = some m)
    (hm : (k, e) ∈ m) : e.variation = variationOf e.current e.previous := by
  conv_lhs => rw [calc_mem_mk h hm]
  rfl

theorem entry_variation_abs_eq {dfc dfp : DataFrame} {m : List (String × VarEntry)}
    {k : String} {e : VarEntry} (h : calculate_comparison_metrics dfc dfp = some m)
    (hm : (k, e) ∈ m) : e.variation_abs = PFloat.sub e.current e.previous := by
  conv_lhs => rw [calc_mem_mk h hm]
  rfl

/-- **C2**: every entry of `calculate_comparison_metrics` follows the
three-branch variation policy exactly: ratio `(cur - prev) / prev * 100`
when the previous aggregate is positive, `0` when both aggregates are `0`,
and the literal sentinel `100` when the previous aggregate is `0` and the
current one is not. -/
theorem c2_variation_policy (dfc dfp : DataFrame) (m : List (String × VarEntry))
    (k : String) (e : VarEntry) (h : calculate_comparison_metrics dfc dfp = some m)
    (hm : (k, e) ∈ m) :
    (∀ cv pv : ℚ, e.current = .val cv → e.previous = .val pv → 0 < pv →
      e.variation = .val ((cv - pv) / pv * 100)) ∧
    (e.previous = .val 0 → e.current = .val 0 → e.variation = .val 0) ∧
    (e.previous = .val 0 → e.current ≠ .val 0 → e.variation = .val 100) := by
  have hv := entry_variation_eq h hm
  refine ⟨?_, ?_, ?_⟩
  · intro cv pv hcv hpv hpos
    rw [hv, hcv, hpv]
    simp [variationOf, PFloat.gtZero, PFloat.pctChange, hpos]
  · intro hp0 hc0
    rw [hv, hp0, hc0]
    norm_num [variationOf, PFloat.gtZero, PFloat.eqZero]
  · intro hp0 hc0
    rw [hv, hp0]
    rcases hq : e.current with _ | q
    · norm_num [variationOf, PFloat.gtZero, PFloat.eqZero]
    · have hq0 : q ≠ 0 := fun h0 => hc0 (by rw [hq, h0])
      norm_num [variationOf, PFloat.gtZero, PFloat.eqZero, hq0]

/-- **C7**: every entry of `calculate_comparison_metrics` satisfies
`variation_abs = current - previous`, exactly (with `NaN` propagating through
the subtraction when an aggregate is `NaN`). -/
theorem c7_variation_abs (dfc dfp : DataFrame) (m : List (String × VarEntry))
    (k : String) (e : VarEntry) (h : calculate_comparison_metrics dfc dfp = some m)
    (hm : (k, e) ∈ m) :
    e.variation_abs = PFloat.sub e.current e.previous ∧
    ∀ cv pv : ℚ, e.current = .val cv → e.previous = .val pv →
      e.variation_abs = .val (cv - pv) := by
  have ha := entry_variation_abs_eq h hm
  exact ⟨ha, fun cv pv hcv hpv => by rw [ha, hcv, hpv]; rfl⟩

/-- **C10**: when the previous aggregate is negative, the ratio branch is
not taken: the variation is the sentinel `0` (current aggregate `0`) or
`100` (otherwise). -/
theorem c10_negative_previous (dfc dfp : DataFrame) (m : List (String × VarEntry))
    (k : String) (e : VarEntry) (pv : ℚ) (h : calculate_comparison_metrics dfc dfp = some m)
    (hm : (k, e) ∈ m) (hp : e.previous = .val pv) (hneg : pv < 0) :
    e.variation = if e.current = PFloat.val 0 then PFloat.val 0 else PFloat.val 100 := by
  have hv := entry_variation_eq h hm
  rw [hv, hp]
  have hng : ¬ (0 : ℚ) < pv := not_lt.2 (le_of_lt hneg)
  rcases hq : e.current with _ | q
  · simp [variationOf, PFloat.gtZero, PFloat.eqZero, hng]
  · by_cases hq0 : q = 0
    · subst hq0
      simp [variationOf, PFloat.gtZero, PFloat.eqZero, hng]
    · simp [variationOf, PFloat.gtZero, PFloat.eqZero, hng, hq0]

/-- **C6**: both functions succeed exactly when every requested column (the
eight metrics for `calculate_comparison_metrics`; the dimension and the
three summed metrics for `analyze_by_dimension`) is present in both frames'
schemas — a missing column is the only failure mode, and it always fails
(`KeyError`, the spec's `SchemaMismatch`), never silently defaults. -/
theorem c6_schema_mismatch (dfc dfp : DataFrame) (d : String) :
    ((calculate_comparison_metrics dfc dfp).isSome = true ↔
      ∀ c ∈ allMetrics, c ∈ dfc.metCols ∧ c ∈ dfp.metCols) ∧
    ((analyze_by_dimension dfc dfp d).isSome = true ↔
      (d ∈ dfc.dimCols ∧ d ∈ dfp.dimCols) ∧
        ∀ c ∈ dimMetrics, c ∈ dfc.metCols ∧ c ∈ dfp.metCols) := by
  constructor
  · rw [calc_isSome]
    constructor
    · rintro ⟨hc, hp⟩ c hc2
      exact ⟨hc c hc2, hp c hc2⟩
    · intro h2
      exact ⟨fun c hc2 => (h2 c hc2).1, fun c hc2 => (h2 c hc2).2⟩
  · rw [analyze_isSome]
    constructor
    · rintro ⟨⟨h1, h2⟩, h3, h4⟩
      exact ⟨⟨h1, h3⟩, fun c hc2 => ⟨h2 c hc2, h4 c hc2⟩⟩
    · rintro ⟨⟨h1, h3⟩, h2⟩
      exact ⟨⟨h1, fun c hc2 => (h2 c hc2).1⟩, h3, fun c hc2 => (h2 c hc2).2⟩

/-- **C9**: both functions are deterministic — equal inputs give equal
outputs (the embedding is a pure function of the frames; grouping iterates
a sorted key index and dicts iterate in insertion order). -/
theorem c9_deterministic (dfc dfp dfc2 dfp2 : DataFrame) (d : String)
    (h1 : dfc = dfc2) (h2 : dfp = dfp2) :
    calculate_comparison_metrics dfc dfp = calculate_comparison_metrics dfc2 dfp2 ∧
    analyze_by_dimension dfc dfp d = analyze_by_dimension dfc2 dfp2 d := by
  subst h1
  subst h2
  exact ⟨rfl, rfl⟩

/-! ### Remaining helper lemmas -/

theorem metCol_length (df : DataFrame) (c : String) :
    (df.metCol c).length = df.rows.length := by
  rw [DataFrame.metCol, List.length_map]

theorem qmean_eq_of_rows {df : DataFrame} {c : String} (h : df.rows ≠ []) :
    qmean (df.metCol c) = .val (qsum (df.metCol c) / (df.rows.length : ℚ)) := by
  rw [qmean, if_neg, metCol_length]
  intro hemp
  rw [DataFrame.metCol, List.isEmpty_iff, List.map_eq_nil_iff] at hemp
  exact h hemp

theorem mem_groupKeys {df : DataFrame} {d k : String} :
    k ∈ df.groupKeys d ↔ k ∈ df.rows.map fun r => r.dim d := by
  rw [DataFrame.groupKeys, mem_stableSort, List.mem_dedup]

theorem fillSum_of_not_mem {df : DataFrame} {d k : String} (c : String)
    (h : k ∉ df.rows.map fun r => r.dim d) : df.fillSum d c k = 0 := by
  rw [DataFrame.fillSum, if_neg fun hk => h (mem_groupKeys.1 hk)]

theorem nodup_countP_eq : ∀ {l : List String}, l.Nodup → ∀ k : String,
    (l.countP fun x => decide (x = k)) = if k ∈ l then 1 else 0 := by
  intro l
  induction l with
  | nil => intro _ k; simp
  | cons a l ih =>
    intro hn k
    rw [List.nodup_cons] at hn
    rw [List.countP_cons, ih hn.2 k]
    by_cases hak : a = k
    · subst hak
      rw [if_neg hn.1]
      simp [List.mem_cons]
    · simp [hak, List.mem_cons, Ne.symm hak]

theorem safeVar_prev_zero (cv : ℚ) : safeVar cv 0 = cv * 100 := by
  rw [safeVar, if_pos rfl]
  ring

/-- **C8**: in `calculate_comparison_metrics` every summable metric's period
value is the sum of its column, and every averaged metric's period value is
the unweighted arithmetic mean of its column (sum divided by the number of
rows, when there are rows). -/
theorem c8_aggregation (dfc dfp : DataFrame) (m : List (String × VarEntry))
    (h : calculate_comparison_metrics dfc dfp = some m) :
    (∀ c ∈ summableMetrics, ∃ e, (c, e) ∈ m ∧
      e.current = .val (qsum (dfc.metCol c)) ∧ e.previous = .val (qsum (dfp.metCol c))) ∧
    (∀ c ∈ averagedMetrics, ∃ e, (c, e) ∈ m ∧
      (dfc.rows ≠ [] → e.current = .val (qsum (dfc.metCol c) / (dfc.rows.length : ℚ))) ∧
      (dfp.rows ≠ [] → e.previous = .val (qsum (dfp.metCol c) / (dfp.rows.length : ℚ)))) := by
  have hsome : (calculate_comparison_metrics dfc dfp).isSome = true := by
    rw [h]
    rfl
  obtain ⟨hc, hp⟩ := calc_isSome.1 hsome
  have hm : m = calcList dfc dfp := by
    have h2 := calc_eq hc hp
    rw [h] at h2
    exact Option.some.inj h2
  subst hm
  constructor
  · intro c hc2
    refine ⟨mkVarEntry (.val (qsum (dfc.metCol c))) (.val (qsum (dfp.metCol c))),
      ?_, rfl, rfl⟩
    simp only [summableMetrics] at hc2
    fin_cases hc2 <;>
      simp [calcList, totalsList, summableMetrics, averagedMetrics]
  · intro c hc2
    refine ⟨mkVarEntry (qmean (dfc.metCol c)) (qmean (dfp.metCol c)), ?_,
      fun hne => ?_, fun hne => ?_⟩
    · simp only [averagedMetrics] at hc2
      fin_cases hc2 <;>
        simp [calcList, totalsList, summableMetrics, averagedMetrics]
    · show qmean (dfc.metCol c) = _
      exact qmean_eq_of_rows hne
    · show qmean (dfp.metCol c) = _
      exact qmean_eq_of_rows hne

/-- **C3**: every row of the `analyze_by_dimension` table computes its
variance columns as `(cur - prev) / prev.replace(0, 1) * 100`; in
particular a zero previous aggregate yields `current * 100` (not the `100`
sentinel of the other layer), and two zero aggregates yield `0`. -/
theorem c3_dimension_variance (dfc dfp : DataFrame) (d : String) (rows : List GroupRow)
    (h : analyze_by_dimension dfc dfp d = some rows) (r : GroupRow) (hr : r ∈ rows) :
    (r.sessions_var = safeVar r.sessions_current r.sessions_previous ∧
     r.users_var = safeVar r.users_current r.users_previous ∧
     r.revenue_var = safeVar r.revenue_current r.revenue_previous) ∧
    ((r.sessions_previous = 0 → r.sessions_var = r.sessions_current * 100) ∧
     (r.users_previous = 0 → r.users_var = r.users_current * 100) ∧
     (r.revenue_previous = 0 → r.revenue_var = r.revenue_current * 100)) ∧
    ((r.sessions_previous = 0 → r.sessions_current = 0 → r.sessions_var = 0) ∧
     (r.users_previous = 0 → r.users_current = 0 → r.users_var = 0) ∧
     (r.revenue_previous = 0 → r.revenue_current = 0 → r.revenue_var = 0)) := by
  obtain ⟨k, hk, rfl⟩ := analyze_mem h hr
  refine ⟨⟨rfl, rfl, rfl⟩, ⟨?_, ?_, ?_⟩, ⟨?_, ?_, ?_⟩⟩ <;> intro h0
  · have h1 : dfp.fillSum d "sessions" k = 0 := h0
    show safeVar (dfc.fillSum d "sessions" k) (dfp.fillSum d "sessions" k) =
      dfc.fillSum d "sessions" k * 100
    rw [h1, safeVar_prev_zero]
  · have h1 : dfp.fillSum d "users" k = 0 := h0
    show safeVar (dfc.fillSum d "users" k) (dfp.fillSum d "users" k) =
      dfc.fillSum d "users" k * 100
    rw [h1, safeVar_prev_zero]
  · have h1 : dfp.fillSum d "revenue" k = 0 := h0
    show safeVar (dfc.fillSum d "revenue" k) (dfp.fillSum d "revenue" k) =
      dfc.fillSum d "revenue" k * 100
    rw [h1, safeVar_prev_zero]
  · intro hc0
    have h1 : dfp.fillSum d "sessions" k = 0 := h0
    have h2 : dfc.fillSum d "sessions" k = 0 := hc0
    show safeVar (dfc.fillSum d "sessions" k) (dfp.fillSum d "sessions" k) = 0
    rw [h1, h2, safeVar_prev_zero, zero_mul]
  · intro hc0
    have h1 : dfp.fillSum d "users" k = 0 := h0
    have h2 : dfc.fillSum d "users" k = 0 := hc0
    show safeVar (dfc.fillSum d "users" k) (dfp.fillSum d "users" k) = 0
    rw [h1, h2, safeVar_prev_zero, zero_mul]
  · intro hc0
    have h1 : dfp.fillSum d "revenue" k = 0 := h0
    have h2 : dfc.fillSum d "revenue" k = 0 := hc0
    show safeVar (dfc.fillSum d "revenue" k) (dfp.fillSum d "revenue" k) = 0
    rw [h1, h2, safeVar_prev_zero, zero_mul]

/-- **C4**: the `analyze_by_dimension` table is the outer join on the union
of the two periods' dimension values: exactly one row per value appearing
in either period, and a key absent from one period has all of that side's
aggregates filled with `0`. -/
theorem c4_outer_join (dfc dfp : DataFrame) (d : String) (rows : List GroupRow)
    (h : analyze_by_dimension dfc dfp d = some rows) :
    (∀ k : String, (rows.filter fun r => r.key = k).length =
      if k ∈ (dfc.rows.map fun r => r.dim d) ∨ k ∈ (dfp.rows.map fun r => r.dim d)
        then 1 else 0) ∧
    (∀ r ∈ rows, r.key ∉ (dfc.rows.map fun r2 => r2.dim d) →
      r.sessions_current = 0 ∧ r.users_current = 0 ∧ r.revenue_current = 0) ∧
    (∀ r ∈ rows, r.key ∉ (dfp.rows.map fun r2 => r2.dim d) →
      r.sessions_previous = 0 ∧ r.users_previous = 0 ∧ r.revenue_previous = 0) := by
  rw [analyze_by_dimension] at h
  split at h
  · cases Option.some.inj h
    refine ⟨?_, ?_, ?_⟩
    · intro k
      have hperm :
          List.Perm
            (sortRows ((unionKeys dfc dfp d).map fun j => mkGroupRow dfc dfp d j))
            ((unionKeys dfc dfp d).map fun j => mkGroupRow dfc dfp d j) :=
        stableSort_perm _ _
      rw [← List.countP_eq_length_filter, hperm.countP_eq, List.countP_map]
      have hcongr : ((fun r => decide (r.key = k)) ∘ fun j => mkGroupRow dfc dfp d j)
          = fun j => decide (j = k) := rfl
      rw [hcongr, nodup_countP_eq (unionKeys_nodup dfc dfp d) k]
      by_cases hk : k ∈ unionKeys dfc dfp d
      · rw [if_pos hk, if_pos (mem_unionKeys.1 hk)]
      · rw [if_neg hk, if_neg fun hor => hk (mem_unionKeys.2 hor)]
    · intro r hr hnot
      obtain ⟨j, hj, rfl⟩ := List.mem_map.1 ((mem_stableSort _).1 hr)
      exact ⟨fillSum_of_not_mem "sessions" hnot, fillSum_of_not_mem "users" hnot,
        fillSum_of_not_mem "revenue" hnot⟩
    · intro r hr hnot
      obtain ⟨j, hj, rfl⟩ := List.mem_map.1 ((mem_stableSort _).1 hr)
      exact ⟨fillSum_of_not_mem "sessions" hnot, fillSum_of_not_mem "users" hnot,
        fillSum_of_not_mem "revenue" hnot⟩
  · exact absurd h (by simp)

/-- **C1** (counterexample to the claim as stated): with both periods empty
the averaged metrics do not aggregate to `0` — pandas' mean of an empty
column is `NaN`, so the engagement-rate entry is `NaN`/`NaN` with variation
`100` (since `NaN` fails both the `> 0` and the `== 0` test), not the
claimed zero/zero/0%. -/
theorem c1_counterexample :
    calculate_comparison_metrics dfEmptyW dfEmptyW = some mEmpty ∧
    ("engagement_rate", (⟨.nan, .nan, .val 100, .nan⟩ : VarEntry)) ∈ mEmpty ∧
    PFloat.nan ≠ PFloat.val 0 ∧ PFloat.val 100 ≠ PFloat.val 0 := by
  decide

/-- **C1** (amended): with both periods empty (and full schemas),
`calculate_comparison_metrics` still returns a value — every summable
metric's entry is `0`/`0` with variation `0`, while every averaged metric's
entry is `NaN`/`NaN` with the `100` sentinel as variation and `NaN` as
absolute variation. -/
theorem c1_empty_frames (dfc dfp : DataFrame) (h1 : dfc.rows = []) (h2 : dfp.rows = [])
    (hc : ∀ c ∈ allMetrics, c ∈ dfc.metCols) (hp : ∀ c ∈ allMetrics, c ∈ dfp.metCols) :
    ∃ m, calculate_comparison_metrics dfc dfp = some m ∧
      (∀ c ∈ summableMetrics, (c, (⟨.val 0, .val 0, .val 0, .val 0⟩ : VarEntry)) ∈ m) ∧
      (∀ c ∈ averagedMetrics, (c, (⟨.nan, .nan, .val 100, .nan⟩ : VarEntry)) ∈ m) := by
  have ec : ∀ c, dfc.metCol c = [] := fun c => by rw [DataFrame.metCol, h1]; rfl
  have ep : ∀ c, dfp.metCol c = [] := fun c => by rw [DataFrame.metCol, h2]; rfl
  have hcl : calcList dfc dfp = mEmpty := by
    norm_num [calcList, totalsList, summableMetrics, averagedMetrics, ec, ep, mEmpty,
      mkVarEntry, qsum, qmean, variationOf, PFloat.gtZero, PFloat.eqZero, PFloat.sub]
  refine ⟨calcList dfc dfp, calc_eq hc hp, ?_, ?_⟩
  · rw [hcl]
    intro c hc2
    simp only [summableMetrics] at hc2
    fin_cases hc2 <;> decide
  · rw [hcl]
    intro c hc2
    simp only [averagedMetrics] at hc2
    fin_cases hc2 <;> decide

/-! ## Witnesses: the theorems instantiated at the concrete frames -/

/-- Witness for C1 (amended): both periods empty at full schema. -/
theorem c1_empty_frames_witness :
    ∃ m, calculate_comparison_metrics dfEmptyW dfEmptyW = some m ∧
      (∀ c ∈ summableMetrics, (c, (⟨.val 0, .val 0, .val 0, .val 0⟩ : VarEntry)) ∈ m) ∧
      (∀ c ∈ averagedMetrics, (c, (⟨.nan, .nan, .val 100, .nan⟩ : VarEntry)) ∈ m) :=
  c1_empty_frames dfEmptyW dfEmptyW rfl rfl (by decide) (by decide)

/-- Witness for C2 at the sessions entry of the concrete report. -/
theorem c2_variation_policy_witness :
    calculate_comparison_metrics dfWcur dfWprev = some mW ∧
    ("sessions", eSessions) ∈ mW ∧
    ((∀ cv pv : ℚ, eSessions.current = .val cv → eSessions.previous = .val pv → 0 < pv →
        eSessions.variation = .val ((cv - pv) / pv * 100)) ∧
     (eSessions.previous = .val 0 → eSessions.current = .val 0 →
        eSessions.variation = .val 0) ∧
     (eSessions.previous = .val 0 → eSessions.current ≠ .val 0 →
        eSessions.variation = .val 100)) :=
  ⟨by decide, by decide,
    c2_variation_policy dfWcur dfWprev mW "sessions" eSessions (by decide) (by decide)⟩

/-- Witness for C7 at the sessions entry of the concrete report. -/
theorem c7_variation_abs_witness :
    calculate_comparison_metrics dfWcur dfWprev = some mW ∧
    ("sessions", eSessions) ∈ mW ∧
    (eSessions.variation_abs = PFloat.sub eSessions.current eSessions.previous ∧
     ∀ cv pv : ℚ, eSessions.current = .val cv → eSessions.previous = .val pv →
       eSessions.variation_abs = .val (cv - pv)) :=
  ⟨by decide, by decide,
    c7_variation_abs dfWcur dfWprev mW "sessions" eSessions (by decide) (by decide)⟩

/-- Witness for C10 at the revenue entry (previous aggregate `-2`). -/
theorem c10_negative_previous_witness :
    calculate_comparison_metrics dfWcur dfWprev = some mW ∧
    ("revenue", eRevenue) ∈ mW ∧ eRevenue.previous = .val (-2) ∧ ((-2 : ℚ) < 0) ∧
    eRevenue.variation =
      (if eRevenue.current = PFloat.val 0 then PFloat.val 0 else PFloat.val 100) :=
  ⟨by decide, by decide, by decide, by decide,
    c10_negative_previous dfWcur dfWprev mW "revenue" eRevenue (-2)
      (by decide) (by decide) (by decide) (by decide)⟩

/-- Witness for C8: sums and unweighted means on the concrete report; the
engagement-rate mean of `1/2` and `7/10` is `0.6`. -/
theorem c8_aggregation_witness :
    calculate_comparison_metrics dfWcur dfWprev = some mW ∧
    ((∀ c ∈ summableMetrics, ∃ e, (c, e) ∈ mW ∧
        e.current = .val (qsum (dfWcur.metCol c)) ∧
        e.previous = .val (qsum (dfWprev.metCol c))) ∧
     (∀ c ∈ averagedMetrics, ∃ e, (c, e) ∈ mW ∧
        (dfWcur.rows ≠ [] →
          e.current = .val (qsum (dfWcur.metCol c) / (dfWcur.rows.length : ℚ))) ∧
        (dfWprev.rows ≠ [] →
          e.previous = .val (qsum (dfWprev.metCol c) / (dfWprev.rows.length : ℚ))))) ∧
    ("engagement_rate", (⟨.val 0.6, .val 1, .val (-40), .val (-2/5)⟩ : VarEntry)) ∈ mW :=
  ⟨by decide, c8_aggregation dfWcur dfWprev mW (by decide), by decide⟩

/-- Witness for C9 at the concrete frames. -/
theorem c9_deterministic_witness :
    calculate_comparison_metrics dfWcur dfWprev = calculate_comparison_metrics dfWcur dfWprev ∧
    analyze_by_dimension dfWcur dfWprev "channel" =
      analyze_by_dimension dfWcur dfWprev "channel" :=
  c9_deterministic dfWcur dfWprev dfWcur dfWprev "channel" rfl rfl

/-- Witness for C3 at the "a" row of the concrete table (previous
aggregates all `0`, so its variance columns are `current * 100`). -/
theorem c3_dimension_variance_witness :
    analyze_by_dimension dfAcur dfAprev "channel" = some rowsA ∧ gA ∈ rowsA ∧
    ((gA.sessions_var = safeVar gA.sessions_current gA.sessions_previous ∧
      gA.users_var = safeVar gA.users_current gA.users_previous ∧
      gA.revenue_var = safeVar gA.revenue_current gA.revenue_previous) ∧
     ((gA.sessions_previous = 0 → gA.sessions_var = gA.sessions_current * 100) ∧
      (gA.users_previous = 0 → gA.users_var = gA.users_current * 100) ∧
      (gA.revenue_previous = 0 → gA.revenue_var = gA.revenue_current * 100)) ∧
     ((gA.sessions_previous = 0 → gA.sessions_current = 0 → gA.sessions_var = 0) ∧
      (gA.users_previous = 0 → gA.users_current = 0 → gA.users_var = 0) ∧
      (gA.revenue_previous = 0 → gA.revenue_current = 0 → gA.revenue_var = 0))) :=
  ⟨by decide, by decide,
    c3_dimension_variance dfAcur dfAprev "channel" rowsA (by decide) gA (by decide)⟩

/-- Witness for C4 on the concrete table: one row per channel of either
period ("a", "b" only current; "c" only previous), and the missing sides
are zero-filled. -/
theorem c4_outer_join_witness :
    analyze_by_dimension dfAcur dfAprev "channel" = some rowsA ∧
    ((∀ k : String, (rowsA.filter fun r => r.key = k).length =
        if k ∈ (dfAcur.rows.map fun r => r.dim "channel")
            ∨ k ∈ (dfAprev.rows.map fun r => r.dim "channel") then 1 else 0) ∧
     (∀ r ∈ rowsA, r.key ∉ (dfAcur.rows.map fun r2 => r2.dim "channel") →
        r.sessions_current = 0 ∧ r.users_current = 0 ∧ r.revenue_current = 0) ∧
     (∀ r ∈ rowsA, r.key ∉ (dfAprev.rows.map fun r2 => r2.dim "channel") →
        r.sessions_previous = 0 ∧ r.users_previous = 0 ∧ r.revenue_previous = 0)) :=
  ⟨by decide, c4_outer_join dfAcur dfAprev "channel" rowsA (by decide)⟩

